import Mathlib

/-!
Shallow embedding of `src/main.py` of nest-push-subscriber.

The Python module has two functions:
* `trigger_openhab_if_match(message, openhab_url, openhab_item, openhab_token,
  event_type, thread_state)` — checks two conditions on the event mapping and,
  when both hold, issues one HTTP POST to the OpenHAB REST API.
* `handle_camera_event_pubsub(cloud_event)` — decodes a base64/JSON pub/sub
  envelope and calls `trigger_openhab_if_match` with hard-coded configuration.

The embedding makes the effects explicit:
* the current time (`datetime.now(timezone.utc).isoformat()`) is a `now : String`
  parameter — the value the datetime library returns at call time;
* the network (`requests.post`) is an oracle `net : HttpRequest → NetOutcome`;
* raised exceptions are `Except.error` values;
* the list of outbound POSTs actually issued is returned alongside the result,
  so that "at most one POST per invocation" is a statement about the output.
-/

namespace NestPush

/-- The `resourceUpdate` sub-mapping of an event.  Only the keys of its
`events` field are ever inspected (`event_type not in events`), so the
`events` mapping is embedded by its key list; `none` means the field is
absent from the mapping. -/
structure ResourceUpdate where
  events : Option (List String)
deriving Repr, DecidableEq

/-- An event message (the decoded JSON payload).  Only the two fields read by
`trigger_openhab_if_match` are relevant; `none` models an absent key, as
returned by Python's `dict.get`. -/
structure Event where
  eventThreadState : Option String
  resourceUpdate : Option ResourceUpdate
deriving Repr, DecidableEq

/-- An outbound HTTP POST as passed to `requests.post(item_url, data=...,
headers=..., timeout=10)`. -/
structure HttpRequest where
  url : String
  body : String
  headers : List (String × String)
deriving Repr, DecidableEq

/-- An HTTP response as seen through `requests`: status code and body text. -/
structure HttpResponse where
  status : Nat
  body : String
deriving Repr, DecidableEq

/-- Outcome of a `requests.post` call: either a network-level
`RequestException` (connection error, timeout — no response attached), or a
response object (any status code; `requests.post` itself does not raise on
non-2xx). -/
inductive NetOutcome where
  | netError (msg : String) : NetOutcome
  | gotResponse (r : HttpResponse) : NetOutcome
deriving Repr, DecidableEq

/-- The `requests.exceptions.RequestException` that escapes
`trigger_openhab_if_match` (the `except` block logs and re-raises):
either the `HTTPError` raised by `response.raise_for_status()` (carrying the
response's status code and body), or the network-level error. -/
inductive TriggerError where
  | httpError (status : Nat) (body : String) : TriggerError
  | netError (msg : String) : TriggerError
deriving Repr, DecidableEq

instance {ε α : Type} [DecidableEq ε] [DecidableEq α] : DecidableEq (Except ε α) :=
  fun a b =>
    match a, b with
    | Except.error e1, Except.error e2 =>
        if h : e1 = e2 then Decidable.isTrue (by rw [h])
        else Decidable.isFalse (by intro hc; cases hc; exact h rfl)
    | Except.ok a1, Except.ok a2 =>
        if h : a1 = a2 then Decidable.isTrue (by rw [h])
        else Decidable.isFalse (by intro hc; cases hc; exact h rfl)
    | Except.error _, Except.ok _ => Decidable.isFalse (by intro hc; cases hc)
    | Except.ok _, Except.error _ => Decidable.isFalse (by intro hc; cases hc)

/-- Observable outcome of one invocation of `trigger_openhab_if_match`:
the returned value (or propagated exception) together with the list of
outbound POSTs issued during the invocation. -/
structure TriggerOutput where
  result : Except TriggerError Bool
  posts : List HttpRequest
deriving Repr, DecidableEq

/-- Python truthiness of the `openhab_token : str = None` parameter, as
tested by `if openhab_token:` — `None` and the empty string are falsy. -/
def tokenTruthy : Option String → Bool
  | none => false
  | some t => t != ""

/-- The header dict built in lines 53–58 of `main.py`, before the optional
`Authorization` entry. -/
def baseHeaders : List (String × String) :=
  [("Content-Type", "text/plain"),
   ("Accept", "application/json"),
   ("CF-Access-Client-Id", ""),
   ("CF-Access-Client-Secret", "")]

/-- The headers sent: the base dict, plus
`Authorization: Bearer <token>` appended when `if openhab_token:` is truthy
(lines 61–62 of `main.py`). -/
def headersFor (openhab_token : Option String) : List (String × String) :=
  if tokenTruthy openhab_token then
    baseHeaders ++ [("Authorization", "Bearer " ++ openhab_token.getD "")]
  else
    baseHeaders

/-- The single POST request built in lines 47–70 of `main.py`:
url `f"{openhab_url}/rest/items/{openhab_item}"`, body the current
timestamp string, headers as above. -/
def theRequest (openhab_url openhab_item : String) (openhab_token : Option String)
    (now : String) : HttpRequest :=
  { url := openhab_url ++ "/rest/items/" ++ openhab_item,
    body := now,
    headers := headersFor openhab_token }

/-- `message.get("resourceUpdate", {}).get("events", {})`, reduced to the key
list of the resulting mapping (lines 37–38 of `main.py`): an absent
`resourceUpdate` or an absent `events` yields the empty mapping. -/
def eventsKeys (message : Event) : List String :=
  ((message.resourceUpdate.getD { events := none }).events).getD []

/-- `trigger_openhab_if_match` (lines 8–82 of `main.py`).

* line 32: `if message.get("eventThreadState") != thread_state: return False`
* lines 37–42: `if event_type not in events: return False`
* lines 45–75: build the request, `requests.post(...)`,
  `response.raise_for_status()`, `return True`
* lines 77–82: `except RequestException`: log (with status/body when a
  response is attached) and `raise` — the error propagates.

`response.raise_for_status()` raises `HTTPError` exactly when
`400 <= status_code < 600`. -/
def trigger_openhab_if_match (message : Event) (openhab_url openhab_item : String)
    (openhab_token : Option String) (event_type thread_state : String)
    (now : String) (net : HttpRequest → NetOutcome) : TriggerOutput :=
  if message.eventThreadState ≠ some thread_state then
    { result := Except.ok false, posts := [] }
  else if event_type ∉ eventsKeys message then
    { result := Except.ok false, posts := [] }
  else
    let req := theRequest openhab_url openhab_item openhab_token now
    match net req with
    | NetOutcome.netError msg =>
        { result := Except.error (TriggerError.netError msg), posts := [req] }
    | NetOutcome.gotResponse r =>
        if 400 ≤ r.status ∧ r.status < 600 then
          { result := Except.error (TriggerError.httpError r.status r.body),
            posts := [req] }
        else
          { result := Except.ok true, posts := [req] }

/-- The two match conditions of `trigger_openhab_if_match`: the thread state
equals the expected one and the expected event type is a key of
`resourceUpdate.events`. -/
def matchConds (message : Event) (event_type thread_state : String) : Prop :=
  message.eventThreadState = some thread_state ∧ event_type ∈ eventsKeys message

instance (message : Event) (event_type thread_state : String) :
    Decidable (matchConds message event_type thread_state) :=
  inferInstanceAs (Decidable (_ ∧ _))

/-- Failure while decoding the pub/sub envelope (lines 101–102 of `main.py`):
`base64.b64decode(...)`/`.decode()` failure or `json.loads` failure. -/
inductive DecodeError where
  | base64Error (msg : String) : DecodeError
  | jsonError (msg : String) : DecodeError
deriving Repr, DecidableEq

/-- An exception escaping `handle_camera_event_pubsub` (the `except` block
logs and re-raises every exception). -/
inductive HandlerError where
  | decodeFailure (e : DecodeError) : HandlerError
  | triggerFailure (e : TriggerError) : HandlerError
deriving Repr, DecidableEq

/-- Observable outcome of one invocation of `handle_camera_event_pubsub`. -/
structure HandlerOutput where
  result : Except HandlerError Unit
  posts : List HttpRequest
deriving Repr, DecidableEq

/-- Default `event_type` argument of `trigger_openhab_if_match` (line 13). -/
def default_event_type : String := "sdm.devices.events.CameraPerson.Person"

/-- Default `thread_state` argument of `trigger_openhab_if_match` (line 14). -/
def default_thread_state : String := "STARTED"

/-- `handle_camera_event_pubsub` (lines 86–119 of `main.py`).  The base64 +
JSON decoding of the envelope is embedded by its outcome
`decoded : Except DecodeError Event`; when it fails, the exception
propagates out of the `try` block before `trigger_openhab_if_match` is
reached.  The handler hard-codes `openhab_url = 'https://openhab.local'`,
`openhab_item = 'CameraPersonDetected'`, `openhab_token = ''` and leaves
`event_type`/`thread_state` at their defaults.  Every exception is logged
and re-raised. -/
def handle_camera_event_pubsub (decoded : Except DecodeError Event)
    (now : String) (net : HttpRequest → NetOutcome) : HandlerOutput :=
  match decoded with
  | Except.error e =>
      { result := Except.error (HandlerError.decodeFailure e), posts := [] }
  | Except.ok message_json =>
      let out := trigger_openhab_if_match message_json "https://openhab.local"
        "CameraPersonDetected" (some "") default_event_type default_thread_state
        now net
      match out.result with
      | Except.ok _ => { result := Except.ok (), posts := out.posts }
      | Except.error e =>
          { result := Except.error (HandlerError.triggerFailure e),
            posts := out.posts }

/-! ### Helper lemmas: the three paths of `trigger_openhab_if_match` -/

/-- Thread-state mismatch path (lines 32–34): return `False`, no POST. -/
theorem trigger_nomatch_thread (message : Event) (url item : String)
    (tok : Option String) (et ts now : String) (net : HttpRequest → NetOutcome)
    (h1 : message.eventThreadState ≠ some ts) :
    trigger_openhab_if_match message url item tok et ts now net =
      { result := Except.ok false, posts := [] } := by
  simp [trigger_openhab_if_match, h1]

/-- Event-type-absent path (lines 40–42): return `False`, no POST. -/
theorem trigger_nomatch_eventtype (message : Event) (url item : String)
    (tok : Option String) (et ts now : String) (net : HttpRequest → NetOutcome)
    (h1 : message.eventThreadState = some ts) (h2 : et ∉ eventsKeys message) :
    trigger_openhab_if_match message url item tok et ts now net =
      { result := Except.ok false, posts := [] } := by
  simp [trigger_openhab_if_match, h1, h2]

/-- Matching path (lines 45–82): the outcome is determined by the network's
answer to the one request. -/
theorem trigger_match_eq (message : Event) (url item : String)
    (tok : Option String) (et ts now : String) (net : HttpRequest → NetOutcome)
    (h1 : message.eventThreadState = some ts) (h2 : et ∈ eventsKeys message) :
    trigger_openhab_if_match message url item tok et ts now net =
      match net (theRequest url item tok now) with
      | NetOutcome.netError msg =>
          { result := Except.error (TriggerError.netError msg),
            posts := [theRequest url item tok now] }
      | NetOutcome.gotResponse r =>
          if 400 ≤ r.status ∧ r.status < 600 then
            { result := Except.error (TriggerError.httpError r.status r.body),
              posts := [theRequest url item tok now] }
          else
            { result := Except.ok true, posts := [theRequest url item tok now] } := by
  simp [trigger_openhab_if_match, h1, h2]

/-- On the matching path exactly the one built request is POSTed, whatever
the network does. -/
theorem trigger_match_posts (message : Event) (url item : String)
    (tok : Option String) (et ts now : String) (net : HttpRequest → NetOutcome)
    (h1 : message.eventThreadState = some ts) (h2 : et ∈ eventsKeys message) :
    (trigger_openhab_if_match message url item tok et ts now net).posts =
      [theRequest url item tok now] := by
  rw [trigger_match_eq message url item tok et ts now net h1 h2]
  cases net (theRequest url item tok now) with
  | netError msg => rfl
  | gotResponse r =>
      by_cases hs : 400 ≤ r.status ∧ r.status < 600
      · simp only [if_pos hs]
      · simp only [if_neg hs]

/-- Every POST issued by an invocation is the one request built from the
configuration and the call-time timestamp. -/
theorem mem_posts_eq (message : Event) (url item : String)
    (tok : Option String) (et ts now : String) (net : HttpRequest → NetOutcome) :
    ∀ req ∈ (trigger_openhab_if_match message url item tok et ts now net).posts,
      req = theRequest url item tok now := by
  intro req hreq
  by_cases h1 : message.eventThreadState = some ts
  · by_cases h2 : et ∈ eventsKeys message
    · rw [trigger_match_posts message url item tok et ts now net h1 h2] at hreq
      exact List.mem_singleton.mp hreq
    · rw [trigger_nomatch_eventtype message url item tok et ts now net h1 h2] at hreq
      simp at hreq
  · rw [trigger_nomatch_thread message url item tok et ts now net h1] at hreq
    simp at hreq

/-- A falsy token leaves the header dict at its four base entries, so no
`Authorization` key is sent. -/
theorem trigger_no_auth_header (message : Event) (url item : String)
    (tok : Option String) (et ts now : String) (net : HttpRequest → NetOutcome)
    (hfalsy : tokenTruthy tok = false) :
    ∀ req ∈ (trigger_openhab_if_match message url item tok et ts now net).posts,
      "Authorization" ∉ req.headers.map Prod.fst := by
  intro req hreq
  rw [mem_posts_eq message url item tok et ts now net req hreq]
  simp [theRequest, headersFor, hfalsy, baseHeaders]

/-- The handler's POSTs are exactly those of the inner
`trigger_openhab_if_match` call (none when decoding failed). -/
theorem handler_posts_eq (decoded : Except DecodeError Event) (now : String)
    (net : HttpRequest → NetOutcome) :
    (handle_camera_event_pubsub decoded now net).posts =
      match decoded with
      | Except.error _ => []
      | Except.ok m =>
          (trigger_openhab_if_match m "https://openhab.local" "CameraPersonDetected"
            (some "") default_event_type default_thread_state now net).posts := by
  cases decoded with
  | error e => rfl
  | ok m =>
      cases h : (trigger_openhab_if_match m "https://openhab.local" "CameraPersonDetected"
          (some "") default_event_type default_thread_state now net).result <;>
        simp [handle_camera_event_pubsub, h]

/-! ### Concrete data for witnesses -/

/-- The matching scenario event of spec §8. -/
def sampleEvent : Event :=
  { eventThreadState := some "STARTED",
    resourceUpdate := some { events := some ["sdm.devices.events.CameraPerson.Person"] } }

/-- A network that answers every request with status 200. -/
def okNet : HttpRequest → NetOutcome :=
  fun _ => NetOutcome.gotResponse { status := 200, body := "" }

/-- A network that answers every request with status 500. -/
def errNet : HttpRequest → NetOutcome :=
  fun _ => NetOutcome.gotResponse { status := 500, body := "ISE" }

/-! ### Claim theorems -/

/-- C1: For every invocation of `trigger_openhab_if_match`, an outbound HTTP
POST is issued if and only if both match conditions hold (the event's
`eventThreadState` equals the expected thread state, and the expected event
type is a key of `resourceUpdate.events`), and at most one outbound POST is
made per invocation. -/
theorem post_iff_match_and_at_most_one (message : Event) (url item : String)
    (tok : Option String) (et ts now : String) (net : HttpRequest → NetOutcome) :
    ((trigger_openhab_if_match message url item tok et ts now net).posts ≠ []
      ↔ matchConds message et ts)
    ∧ (trigger_openhab_if_match message url item tok et ts now net).posts.length ≤ 1 := by
  by_cases h1 : message.eventThreadState = some ts
  · by_cases h2 : et ∈ eventsKeys message
    · rw [trigger_match_posts message url item tok et ts now net h1 h2]
      exact ⟨⟨fun _ => ⟨h1, h2⟩, fun _ => by simp⟩, by simp⟩
    · rw [trigger_nomatch_eventtype message url item tok et ts now net h1 h2]
      simp [matchConds, h2]
  · rw [trigger_nomatch_thread message url item tok et ts now net h1]
    simp [matchConds, h1]

/-- C2: The match predicate of `trigger_openhab_if_match` returns `False`
whenever `eventThreadState` differs from the expected thread state (whatever
the event-type contents), returns `False` whenever the thread state matches
but the expected event type key is absent from `resourceUpdate.events`, and
proceeds to issue the POST exactly when both conditions hold. -/
theorem matcher_rejects_and_accepts (message : Event) (url item : String)
    (tok : Option String) (et ts now : String) (net : HttpRequest → NetOutcome) :
    (message.eventThreadState ≠ some ts →
        trigger_openhab_if_match message url item tok et ts now net =
          { result := Except.ok false, posts := [] })
    ∧ (message.eventThreadState = some ts → et ∉ eventsKeys message →
        trigger_openhab_if_match message url item tok et ts now net =
          { result := Except.ok false, posts := [] })
    ∧ (matchConds message et ts →
        (trigger_openhab_if_match message url item tok et ts now net).posts =
          [theRequest url item tok now]) :=
  ⟨fun h1 => trigger_nomatch_thread message url item tok et ts now net h1,
   fun h1 h2 => trigger_nomatch_eventtype message url item tok et ts now net h1 h2,
   fun h => trigger_match_posts message url item tok et ts now net h.1 h.2⟩

/-- Witness for C2 at the `{"eventThreadState":"ENDED"}` scenario of spec §8:
no POST, result `False`. -/
theorem matcher_rejects_and_accepts_witness :
    trigger_openhab_if_match { eventThreadState := some "ENDED", resourceUpdate := none }
      "http://oh" "Item" none default_event_type default_thread_state "TS" okNet =
      { result := Except.ok false, posts := [] } :=
  (matcher_rejects_and_accepts { eventThreadState := some "ENDED", resourceUpdate := none }
    "http://oh" "Item" none default_event_type default_thread_state "TS" okNet).1
    (by decide)

/-- C3: When `resourceUpdate` is missing, or `events` inside it is missing,
the match evaluation raises no exception: the missing field acts as an empty
mapping and the function returns `False` (and issues no POST). -/
theorem missing_fields_return_false (message : Event) (url item : String)
    (tok : Option String) (et ts now : String) (net : HttpRequest → NetOutcome)
    (h : message.resourceUpdate = none ∨
      ∃ ru, message.resourceUpdate = some ru ∧ ru.events = none) :
    trigger_openhab_if_match message url item tok et ts now net =
      { result := Except.ok false, posts := [] } := by
  have hkeys : eventsKeys message = [] := by
    rcases h with h | ⟨ru, hru, hev⟩
    · simp [eventsKeys, h]
    · simp [eventsKeys, hru, hev]
  by_cases h1 : message.eventThreadState = some ts
  · exact trigger_nomatch_eventtype message url item tok et ts now net h1
      (by simp [hkeys])
  · exact trigger_nomatch_thread message url item tok et ts now net h1

/-- Witness for C3: matching thread state but missing `resourceUpdate`. -/
theorem missing_fields_return_false_witness :
    trigger_openhab_if_match { eventThreadState := some "STARTED", resourceUpdate := none }
      "http://oh" "Item" none default_event_type default_thread_state "TS" okNet =
      { result := Except.ok false, posts := [] } :=
  missing_fields_return_false { eventThreadState := some "STARTED", resourceUpdate := none }
    "http://oh" "Item" none default_event_type default_thread_state "TS" okNet
    (Or.inl rfl)

/-- C4: When both match conditions hold and the POST meets a network-level
failure or a non-success status (the 4xx/5xx range that
`response.raise_for_status()` rejects), the invocation propagates the error —
carrying the status code and response body when a response is available —
and issues exactly the one POST; no failure becomes a normal return value. -/
theorem failure_logged_and_reraised (message : Event) (url item : String)
    (tok : Option String) (et ts now : String) (net : HttpRequest → NetOutcome)
    (hm : matchConds message et ts) :
    (∀ msg, net (theRequest url item tok now) = NetOutcome.netError msg →
        trigger_openhab_if_match message url item tok et ts now net =
          { result := Except.error (TriggerError.netError msg),
            posts := [theRequest url item tok now] })
    ∧ (∀ r, net (theRequest url item tok now) = NetOutcome.gotResponse r →
        400 ≤ r.status → r.status < 600 →
        trigger_openhab_if_match message url item tok et ts now net =
          { result := Except.error (TriggerError.httpError r.status r.body),
            posts := [theRequest url item tok now] }) := by
  rw [trigger_match_eq message url item tok et ts now net hm.1 hm.2]
  constructor
  · intro msg hmsg
    rw [hmsg]
  · intro r hr h4 h6
    rw [hr]
    simp only [if_pos (And.intro h4 h6)]

/-- Witness for C4: matching event, endpoint answering 500 → propagated
`httpError 500` and exactly one POST. -/
theorem failure_logged_and_reraised_witness :
    trigger_openhab_if_match sampleEvent "http://oh" "Item" none
      default_event_type default_thread_state "TS" errNet =
      { result := Except.error (TriggerError.httpError 500 "ISE"),
        posts := [theRequest "http://oh" "Item" none "TS"] } :=
  (failure_logged_and_reraised sampleEvent "http://oh" "Item" none
    default_event_type default_thread_state "TS" errNet (by decide)).2
    { status := 500, body := "ISE" } rfl (by decide) (by decide)

/-- C5: When both match conditions hold and the response status is in the
success range, `trigger_openhab_if_match` returns `True`. -/
theorem success_returns_true (message : Event) (url item : String)
    (tok : Option String) (et ts now : String) (net : HttpRequest → NetOutcome)
    (hm : matchConds message et ts) (r : HttpResponse)
    (hr : net (theRequest url item tok now) = NetOutcome.gotResponse r)
    (h2xx : 200 ≤ r.status ∧ r.status < 300) :
    (trigger_openhab_if_match message url item tok et ts now net).result =
      Except.ok true := by
  rw [trigger_match_eq message url item tok et ts now net hm.1 hm.2, hr]
  have hnot : ¬ (400 ≤ r.status ∧ r.status < 600) := by omega
  simp only [if_neg hnot]

/-- Witness for C5: matching event, endpoint answering 200 → `True`. -/
theorem success_returns_true_witness :
    (trigger_openhab_if_match sampleEvent "http://oh" "Item" none
      default_event_type default_thread_state "TS" okNet).result = Except.ok true :=
  success_returns_true sampleEvent "http://oh" "Item" none
    default_event_type default_thread_state "TS" okNet (by decide)
    { status := 200, body := "" } rfl (by decide)

/-- C6: The body of the outbound POST is the literal timestamp string
computed at call time (the `now` value the datetime library returns during
the invocation — the same for every event payload, so never a timestamp taken
from the event), sent as plain text. -/
theorem post_body_is_current_timestamp (message : Event) (url item : String)
    (tok : Option String) (et ts now : String) (net : HttpRequest → NetOutcome) :
    ∀ req ∈ (trigger_openhab_if_match message url item tok et ts now net).posts,
      req.body = now ∧ ("Content-Type", "text/plain") ∈ req.headers := by
  intro req hreq
  rw [mem_posts_eq message url item tok et ts now net req hreq]
  refine ⟨rfl, ?_⟩
  cases htok : tokenTruthy tok <;>
    simp [theRequest, headersFor, htok, baseHeaders]

/-- Witness for C6: on the matching scenario the one POST carries the
call-time timestamp as its plain-text body. -/
theorem post_body_is_current_timestamp_witness :
    (theRequest "http://oh" "Item" none "TS").body = "TS" ∧
      ("Content-Type", "text/plain") ∈ (theRequest "http://oh" "Item" none "TS").headers :=
  post_body_is_current_timestamp sampleEvent "http://oh" "Item" none
    default_event_type default_thread_state "TS" okNet
    (theRequest "http://oh" "Item" none "TS") (by decide)

/-- C7: The headers of the outbound POST are exactly `Content-Type:
text/plain`, `Accept: application/json`, the two empty-valued
`CF-Access-Client-Id`/`CF-Access-Client-Secret` headers, and — exactly when a
(truthy) bearer token is configured — `Authorization: Bearer <token>`. -/
theorem post_headers_exact (message : Event) (url item : String)
    (tok : Option String) (et ts now : String) (net : HttpRequest → NetOutcome) :
    ∀ req ∈ (trigger_openhab_if_match message url item tok et ts now net).posts,
      (tokenTruthy tok = false →
          req.headers =
            [("Content-Type", "text/plain"), ("Accept", "application/json"),
             ("CF-Access-Client-Id", ""), ("CF-Access-Client-Secret", "")])
      ∧ (∀ t, tok = some t → t ≠ "" →
          req.headers =
            [("Content-Type", "text/plain"), ("Accept", "application/json"),
             ("CF-Access-Client-Id", ""), ("CF-Access-Client-Secret", ""),
             ("Authorization", "Bearer " ++ t)]) := by
  intro req hreq
  rw [mem_posts_eq message url item tok et ts now net req hreq]
  constructor
  · intro hf
    simp [theRequest, headersFor, hf, baseHeaders]
  · intro t ht hne
    subst ht
    have htr : tokenTruthy (some t) = true := by
      simp [tokenTruthy]
      exact hne
    simp [theRequest, headersFor, htr, baseHeaders]

/-- Witness for C7: with token `"secret"` the POST carries the four base
headers plus `Authorization: Bearer secret`. -/
theorem post_headers_exact_witness :
    (theRequest "http://oh" "Item" (some "secret") "TS").headers =
      [("Content-Type", "text/plain"), ("Accept", "application/json"),
       ("CF-Access-Client-Id", ""), ("CF-Access-Client-Secret", ""),
       ("Authorization", "Bearer secret")] :=
  (post_headers_exact sampleEvent "http://oh" "Item" (some "secret")
    default_event_type default_thread_state "TS" okNet
    (theRequest "http://oh" "Item" (some "secret") "TS") (by decide)).2
    "secret" rfl (by decide)

/-- C8: The target URL of the outbound POST is exactly the configured base
URL joined with `/rest/items/` and the configured item name. -/
theorem post_url_exact (message : Event) (url item : String)
    (tok : Option String) (et ts now : String) (net : HttpRequest → NetOutcome) :
    ∀ req ∈ (trigger_openhab_if_match message url item tok et ts now net).posts,
      req.url = url ++ "/rest/items/" ++ item := by
  intro req hreq
  rw [mem_posts_eq message url item tok et ts now net req hreq]
  rfl

/-- Witness for C8 on the matching scenario. -/
theorem post_url_exact_witness :
    (theRequest "http://oh" "Item" none "TS").url = "http://oh" ++ "/rest/items/" ++ "Item" :=
  post_url_exact sampleEvent "http://oh" "Item" none
    default_event_type default_thread_state "TS" okNet
    (theRequest "http://oh" "Item" none "TS") (by decide)

/-- C9: When decoding the inbound envelope fails (base64 or JSON), the
handler propagates the error and performs no partial processing: no outbound
POST is issued for that invocation. -/
theorem malformed_envelope_propagates (e : DecodeError) (now : String)
    (net : HttpRequest → NetOutcome) :
    handle_camera_event_pubsub (Except.error e) now net =
      { result := Except.error (HandlerError.decodeFailure e), posts := [] } := rfl

/-- C10: A falsy token — `None` or the empty string — is treated as "no
token configured": no `Authorization` header is ever sent; in particular the
pub/sub handler, which hard-codes the empty-string token, never sends one. -/
theorem falsy_token_omits_authorization (message : Event) (url item : String)
    (tok : Option String) (et ts now : String) (net : HttpRequest → NetOutcome)
    (htok : tok = none ∨ tok = some "") :
    (∀ req ∈ (trigger_openhab_if_match message url item tok et ts now net).posts,
        "Authorization" ∉ req.headers.map Prod.fst)
    ∧ (∀ decoded : Except DecodeError Event,
        ∀ req ∈ (handle_camera_event_pubsub decoded now net).posts,
          "Authorization" ∉ req.headers.map Prod.fst) := by
  have hf : tokenTruthy tok = false := by
    rcases htok with h | h <;> subst h <;> rfl
  constructor
  · exact trigger_no_auth_header message url item tok et ts now net hf
  · intro decoded req hreq
    rw [handler_posts_eq decoded now net] at hreq
    cases decoded with
    | error e => simp at hreq
    | ok m =>
        exact trigger_no_auth_header m "https://openhab.local" "CameraPersonDetected"
          (some "") default_event_type default_thread_state now net rfl req hreq

/-- Witness for C10: the handler's own POST (matching event, empty-string
token) carries no `Authorization` header. -/
theorem falsy_token_omits_authorization_witness :
    "Authorization" ∉
      (theRequest "https://openhab.local" "CameraPersonDetected" (some "") "TS").headers.map
        Prod.fst :=
  (falsy_token_omits_authorization sampleEvent "https://openhab.local"
    "CameraPersonDetected" (some "") default_event_type default_thread_state "TS" okNet
    (Or.inr rfl)).2 (Except.ok sampleEvent)
    (theRequest "https://openhab.local" "CameraPersonDetected" (some "") "TS") (by decide)

end NestPush
